import Mathlib

/-!
Shallow embedding of the Express HTTP service in `src/index.js` and the
extended variant of the same file (routes `/correct-grammar`,
`/auto-complete`, `/roleplay`, `/reset-history`, `/therapist-chat`,
`/therapist-reset`).  Request bodies are JSON objects, the external
generative-model call is an oracle parameter of type `Except String String`
(error message, or reply text), and the two in-memory history maps are
fields of an explicit `ServerState` threaded through each handler.
-/

namespace GrammarAgent

/-- JSON values as delivered by `express.json()` and produced by
`JSON.parse`.  Numbers are modelled as integers: the routes never perform
arithmetic on body fields, and floating-point semantics is outside the
scope of this embedding. -/
inductive Json where
  | null : Json
  | bool (b : Bool) : Json
  | num (n : Int) : Json
  | str (s : String) : Json
  | arr (elems : List Json) : Json
  | obj (fields : List (String × Json)) : Json

/-- JavaScript truthiness restricted to JSON-parseable values: `null`,
`false`, `0` and the empty string are falsy, everything else is truthy
(arrays and objects are always truthy). -/
def truthy : Json → Bool
  | .null => false
  | .bool b => b
  | .num n => n != 0
  | .str s => s != ""
  | .arr _ => true
  | .obj _ => true

/-- Field access on a JSON object body: `none` models JavaScript
`undefined` for a missing property. -/
def getField (body : List (String × Json)) (k : String) : Option Json :=
  body.lookup k

/-- The test `!req.body.k` used by every validation guard: a missing field
(`undefined`) and any falsy value both fail the guard. -/
def fieldTruthy (body : List (String × Json)) (k : String) : Bool :=
  truthy ((getField body k).getD .null)

/-- One-level stringification of an array element as in
`Array.prototype.join`: `null` joins as the empty string; elements that
are themselves composites are approximated, which no route relies on. -/
def jsElemToKey : Json → String
  | .null => ""
  | .bool true => "true"
  | .bool false => "false"
  | .num n => toString n
  | .str s => s
  | .arr _ => ""
  | .obj _ => "[object Object]"

/-- JavaScript string coercion of a value used as an object key
(`conversationHistory[userId]`) or inside a template string.  Faithful on
the primitive values; arrays follow `Array.prototype.toString` to one
nesting level and plain objects follow `Object.prototype.toString`. -/
def jsToKey : Json → String
  | .null => "null"
  | .bool true => "true"
  | .bool false => "false"
  | .num n => toString n
  | .str s => s
  | .arr elems => String.intercalate "," (elems.map jsElemToKey)
  | .obj _ => "[object Object]"

/-- Does a JSON value have the shape `obj` with the given key present? -/
def hasField (j : Json) (k : String) : Bool :=
  match j with
  | .obj fields => (fields.lookup k).isSome
  | _ => false

/-- Property access `o.k` on a parsed JSON value: `none` models
`undefined`. -/
def objGet (j : Json) (k : String) : Option Json :=
  match j with
  | .obj fields => fields.lookup k
  | _ => none

/-! ### The regex `/\x7b.*\x7d/s` used by the roleplay route

`responseText.match(/\x7b.*\x7d/s)` performs a leftmost-greedy match of an
opening brace, any characters (dot matching newlines), and a closing
brace.  `braceMatchL` is the operational translation of that engine
behaviour; `firstToLastBraceL` below restates the spec sentence (substring
from the first opening brace to the last closing brace) for claim C6. -/

/-- Greedy `.*\x7d` on a character list: if the list contains a closing
brace, the prefix up to (and including) the last one. -/
def takeToLastClose : List Char → Option (List Char)
  | [] => none
  | c :: rest =>
    match takeToLastClose rest with
    | some t => some (c :: t)
    | none => if c = '\x7d' then some [c] else none

/-- Leftmost-greedy match of `\x7b.*\x7d` (dotall): scan for an opening
brace from the left, and at the first one try to consume greedily up to
the last closing brace after it; on failure resume the scan. -/
def braceMatchL : List Char → Option (List Char)
  | [] => none
  | c :: rest =>
    if c = '\x7b' then
      match takeToLastClose rest with
      | some t => some (c :: t)
      | none => braceMatchL rest
    else braceMatchL rest

/-- The extraction step of the roleplay route on strings. -/
def braceMatchStr (s : String) : Option String :=
  (braceMatchL s.data).map fun cs => String.mk cs

/-- Index of the first opening brace, if any. -/
def firstOpenIdx : List Char → Option Nat
  | [] => none
  | c :: rest =>
    if c = '\x7b' then some 0 else (firstOpenIdx rest).map (· + 1)

/-- Index of the last closing brace, if any. -/
def lastCloseIdx : List Char → Option Nat
  | [] => none
  | c :: rest =>
    match lastCloseIdx rest with
    | some k => some (k + 1)
    | none => if c = '\x7d' then some 0 else none

/-- Spec formulation for claim C6: the substring extending from the first
opening brace to the last closing brace, failing when no such substring
exists. -/
def firstToLastBraceL (cs : List Char) : Option (List Char) :=
  match firstOpenIdx cs, lastCloseIdx cs with
  | some i, some j => if i < j then some ((cs.drop i).take (j - i + 1)) else none
  | _, _ => none

/-- Spec formulation for claim C6, on strings. -/
def firstToLastBraceStr (s : String) : Option String :=
  (firstToLastBraceL s.data).map fun cs => String.mk cs

/-! ### A model of the runtime built-in `JSON.parse`

Recursive-descent parser over the character list, with a fuel argument
bounding recursion depth (one character is consumed per nesting level, so
`length + 1` fuel always suffices).  String escapes including `\uXXXX` are
supported; number literals are restricted to integers (see `Json.num`);
error messages are this model's own, standing in for the engine's. -/

def isWsChar (c : Char) : Bool :=
  c = ' ' || c = '\t' || c = '\n' || c = '\r'

def skipWs : List Char → List Char
  | [] => []
  | c :: rest => if isWsChar c then skipWs rest else c :: rest

def hexVal (c : Char) : Option Nat :=
  if '0' ≤ c ∧ c ≤ '9' then some (c.toNat - 48)
  else if 'a' ≤ c ∧ c ≤ 'f' then some (c.toNat - 87)
  else if 'A' ≤ c ∧ c ≤ 'F' then some (c.toNat - 55)
  else none

/-- Decode one escape sequence (the character after the backslash and what
follows it). -/
def parseEscape : List Char → Except String (Char × List Char)
  | [] => .error "Unterminated string in JSON"
  | c :: rest =>
    if c = '"' then .ok ('"', rest)
    else if c = '\\' then .ok ('\\', rest)
    else if c = '/' then .ok ('/', rest)
    else if c = 'n' then .ok ('\n', rest)
    else if c = 't' then .ok ('\t', rest)
    else if c = 'r' then .ok ('\r', rest)
    else if c = 'b' then .ok (Char.ofNat 8, rest)
    else if c = 'f' then .ok (Char.ofNat 12, rest)
    else if c = 'u' then
      match rest with
      | h1 :: h2 :: h3 :: h4 :: rest4 =>
        match hexVal h1, hexVal h2, hexVal h3, hexVal h4 with
        | some a, some b, some c3, some d =>
          .ok (Char.ofNat (((a * 16 + b) * 16 + c3) * 16 + d), rest4)
        | _, _, _, _ => .error "Bad Unicode escape in JSON"
      | _ => .error "Bad Unicode escape in JSON"
    else .error "Bad escape in JSON"

/-- Body of a string literal after the opening quote, up to the closing
quote. -/
def parseStringChars (fuel : Nat) (cs : List Char) : Except String (List Char × List Char) :=
  match fuel, cs with
  | 0, _ => .error "Unterminated string in JSON"
  | _, [] => .error "Unterminated string in JSON"
  | fuel' + 1, c :: rest =>
    if c = '"' then .ok ([], rest)
    else if c = '\\' then
      match parseEscape rest with
      | .error e => .error e
      | .ok (ec, rest2) =>
        match parseStringChars fuel' rest2 with
        | .error e => .error e
        | .ok (scs, rest3) => .ok (ec :: scs, rest3)
    else
      match parseStringChars fuel' rest with
      | .error e => .error e
      | .ok (scs, rest2) => .ok (c :: scs, rest2)

/-- Longest prefix of decimal digits and the remainder. -/
def takeDigits : List Char → List Char × List Char
  | [] => ([], [])
  | c :: rest =>
    if c.isDigit then
      let (ds, r) := takeDigits rest
      (c :: ds, r)
    else ([], c :: rest)

def digitsToNat (ds : List Char) : Nat :=
  ds.foldl (fun a c => a * 10 + (c.toNat - 48)) 0

/-- Integer number literal (an optional minus sign and digits); fraction
and exponent forms are outside this model of the built-in. -/
def parseNumber (cs : List Char) : Except String (Json × List Char) :=
  let (neg, cs1) := match cs with
    | '-' :: r => (true, r)
    | _ => (false, cs)
  let (ds, rest) := takeDigits cs1
  if ds.isEmpty then .error "Unexpected token in JSON"
  else
    match rest with
    | '.' :: _ => .error "Non-integer number in JSON is outside this model"
    | 'e' :: _ => .error "Non-integer number in JSON is outside this model"
    | 'E' :: _ => .error "Non-integer number in JSON is outside this model"
    | _ =>
      let n : Int := Int.ofNat (digitsToNat ds)
      .ok (.num (if neg then -n else n), rest)

mutual

/-- One JSON value starting at `cs` (leading whitespace allowed). -/
def parseValue (fuel : Nat) (cs : List Char) : Except String (Json × List Char) :=
  match fuel with
  | 0 => .error "JSON too deeply nested"
  | fuel' + 1 =>
    match skipWs cs with
    | [] => .error "Unexpected end of JSON input"
    | 'n' :: 'u' :: 'l' :: 'l' :: rest => .ok (.null, rest)
    | 't' :: 'r' :: 'u' :: 'e' :: rest => .ok (.bool true, rest)
    | 'f' :: 'a' :: 'l' :: 's' :: 'e' :: rest => .ok (.bool false, rest)
    | '"' :: rest =>
      match parseStringChars (rest.length + 1) rest with
      | .error e => .error e
      | .ok (scs, rest2) => .ok (.str (String.mk scs), rest2)
    | '[' :: rest =>
      match skipWs rest with
      | ']' :: rest2 => .ok (.arr [], rest2)
      | cs2 =>
        match parseArrayLoop fuel' cs2 with
        | .error e => .error e
        | .ok (elems, rest2) => .ok (.arr elems, rest2)
    | '\x7b' :: rest =>
      match skipWs rest with
      | '\x7d' :: rest2 => .ok (.obj [], rest2)
      | cs2 =>
        match parseObjectLoop fuel' cs2 with
        | .error e => .error e
        | .ok (fields, rest2) => .ok (.obj fields, rest2)
    | cs1 => parseNumber cs1

/-- Comma-separated values of a non-empty array, up to the closing
bracket. -/
def parseArrayLoop (fuel : Nat) (cs : List Char) : Except String (List Json × List Char) :=
  match fuel with
  | 0 => .error "JSON too deeply nested"
  | fuel' + 1 =>
    match parseValue fuel' cs with
    | .error e => .error e
    | .ok (v, rest) =>
      match skipWs rest with
      | ',' :: rest2 =>
        match parseArrayLoop fuel' rest2 with
        | .error e => .error e
        | .ok (vs, rest3) => .ok (v :: vs, rest3)
      | ']' :: rest2 => .ok ([v], rest2)
      | _ => .error "Expected comma or close bracket in JSON array"

/-- Key-value members of a non-empty object, up to the closing brace. -/
def parseObjectLoop (fuel : Nat) (cs : List Char) : Except String (List (String × Json) × List Char) :=
  match fuel with
  | 0 => .error "JSON too deeply nested"
  | fuel' + 1 =>
    match skipWs cs with
    | '"' :: rest =>
      match parseStringChars (rest.length + 1) rest with
      | .error e => .error e
      | .ok (kcs, rest2) =>
        match skipWs rest2 with
        | ':' :: rest3 =>
          match parseValue fuel' rest3 with
          | .error e => .error e
          | .ok (v, rest4) =>
            match skipWs rest4 with
            | ',' :: rest5 =>
              match parseObjectLoop fuel' rest5 with
              | .error e => .error e
              | .ok (kvs, rest6) => .ok ((String.mk kcs, v) :: kvs, rest6)
            | '\x7d' :: rest5 => .ok ([(String.mk kcs, v)], rest5)
            | _ => .error "Expected comma or close brace in JSON object"
        | _ => .error "Expected colon in JSON object"
    | _ => .error "Expected string key in JSON object"

end

/-- Model of the string built-in `.trim()`: remove leading and trailing
whitespace. -/
def jsTrim (s : String) : String :=
  String.mk (skipWs ((skipWs s.data.reverse).reverse))

/-- Model of `JSON.parse`: parse one value and require only whitespace to
remain. -/
def jsonParse (s : String) : Except String Json :=
  match parseValue (s.length + 1) s.data with
  | .error e => .error e
  | .ok (v, rest) =>
    if (skipWs rest).isEmpty then .ok v
    else .error "Unexpected non-whitespace character after JSON data"

/-! ### Server state, responses and route handlers

Each `app.post` handler becomes a function from the parsed JSON body, the
outcome of the single external model call (`Except String String`: the
thrown error's message, or the reply text) and the current `ServerState`,
to the next state and the HTTP response.  Handlers that never call the
model take no oracle argument. -/

/-- An entry of `conversationHistory[userId]` in the roleplay route:
`message` is `some` of the request's message for the user turn, and the
(possibly absent, i.e. `undefined`) `response` property of the parsed
model reply for the ai turn. -/
structure ConvEntry where
  role : String
  message : Option Json

/-- An entry of `therapistHistory[userId]`: the raw request message for
the user turn, a string for the ai turn. -/
structure TherEntry where
  role : String
  content : Json

/-- The two module-level in-memory maps, keyed by the coerced user id. -/
structure ServerState where
  conversationHistory : String → Option (List ConvEntry)
  therapistHistory : String → Option (List TherEntry)

/-- Point update of a map; `none` models `delete m[k]`. -/
def setKey {α : Type} (m : String → Option α) (k : String) (v : Option α) :
    String → Option α :=
  fun q => if q = k then v else m q

/-- The state at process start: both maps empty. -/
def initialState : ServerState :=
  { conversationHistory := fun _ => none, therapistHistory := fun _ => none }

structure HttpResponse where
  status : Nat
  body : Json

/-- `res.status(400).json(\x7b error: msg \x7d)`. -/
def resp400 (msg : String) : HttpResponse :=
  { status := 400, body := .obj [("error", .str msg)] }

/-- `res.status(500).json(\x7b error: "AI model error", details: error.message \x7d)`,
the shared catch branch of every model-calling route. -/
def err500 (details : String) : HttpResponse :=
  { status := 500, body := .obj [("error", .str "AI model error"), ("details", .str details)] }

/-- `res.json(body)` (status 200). -/
def ok200 (body : Json) : HttpResponse :=
  { status := 200, body := body }

/-- `POST /correct-grammar`: validate `sentence`, call the model, return
its text under `correctedSentence`; the route never touches either
history map. -/
def correctGrammarHandler (body : List (String × Json))
    (modelResult : Except String String) (st : ServerState) :
    ServerState × HttpResponse :=
  if !fieldTruthy body "sentence" then
    (st, resp400 "Sentence is required")
  else
    match modelResult with
    | .ok text => (st, ok200 (.obj [("correctedSentence", .str text)]))
    | .error e => (st, err500 e)

/-- `POST /auto-complete`: same shape as `/correct-grammar` with the reply
under `completedSentence`. -/
def autoCompleteHandler (body : List (String × Json))
    (modelResult : Except String String) (st : ServerState) :
    ServerState × HttpResponse :=
  if !fieldTruthy body "sentence" then
    (st, resp400 "Sentence is required")
  else
    match modelResult with
    | .ok text => (st, ok200 (.obj [("completedSentence", .str text)]))
    | .error e => (st, err500 e)

/-- `POST /roleplay`: validate the three fields, append the user entry,
then inside the try block call the model, extract a JSON object from the
reply with the brace regex, parse it, append the ai entry and answer 200;
any failure after the user-entry push lands in the catch branch. -/
def roleplayHandler (body : List (String × Json))
    (modelResult : Except String String) (st : ServerState) :
    ServerState × HttpResponse :=
  if !fieldTruthy body "userId" || !fieldTruthy body "scenario" || !fieldTruthy body "message" then
    (st, resp400 "User ID, scenario, and message are required")
  else
    let u := jsToKey ((getField body "userId").getD .null)
    let m := (getField body "message").getD .null
    let hist1 := (st.conversationHistory u).getD [] ++ [{ role := "user", message := some m }]
    let st1 : ServerState :=
      { st with conversationHistory := setKey st.conversationHistory u (some hist1) }
    match modelResult with
    | .error e => (st1, err500 e)
    | .ok text =>
      match braceMatchStr text with
      | none => (st1, err500 "Invalid JSON response from AI")
      | some jsonStr =>
        match jsonParse jsonStr with
        | .error e => (st1, err500 e)
        | .ok aiResponse =>
          let hist2 := hist1 ++ [{ role := "ai", message := objGet aiResponse "response" }]
          let st2 : ServerState :=
            { st1 with conversationHistory := setKey st1.conversationHistory u (some hist2) }
          (st2, ok200 (.obj [("roleplayResponse", aiResponse)]))

/-- `POST /reset-history`: with a truthy `userId`, delete that key when
present (200) and answer 404 otherwise; with no truthy `userId`, clear the
whole roleplay map. -/
def resetHistoryHandler (body : List (String × Json)) (st : ServerState) :
    ServerState × HttpResponse :=
  if fieldTruthy body "userId" then
    let u := jsToKey ((getField body "userId").getD .null)
    match st.conversationHistory u with
    | some _ =>
      ({ st with conversationHistory := setKey st.conversationHistory u none },
        ok200 (.obj [("message", .str ("History reset for user: " ++ u))]))
    | none => (st, { status := 404, body := .obj [("error", .str "User not found")] })
  else
    ({ st with conversationHistory := fun _ => none },
      ok200 (.obj [("message", .str "All conversation histories reset")]))

/-- `POST /therapist-chat`: validate `userId` and `message`, append the
user entry, call the model, append the trimmed reply as the ai entry and
answer 200; a model failure lands in the catch branch. -/
def therapistChatHandler (body : List (String × Json))
    (modelResult : Except String String) (st : ServerState) :
    ServerState × HttpResponse :=
  if !fieldTruthy body "userId" || !fieldTruthy body "message" then
    (st, resp400 "User ID and message are required")
  else
    let u := jsToKey ((getField body "userId").getD .null)
    let m := (getField body "message").getD .null
    let hist1 := (st.therapistHistory u).getD [] ++ [{ role := "user", content := m }]
    let st1 : ServerState :=
      { st with therapistHistory := setKey st.therapistHistory u (some hist1) }
    match modelResult with
    | .error e => (st1, err500 e)
    | .ok text =>
      let aiText := jsTrim text
      let hist2 := hist1 ++ [{ role := "ai", content := .str aiText }]
      let st2 : ServerState :=
        { st1 with therapistHistory := setKey st1.therapistHistory u (some hist2) }
      (st2, ok200 (.obj [("therapistResponse", .str aiText)]))

/-- `POST /therapist-reset`: with a truthy `userId`, delete that key
unconditionally (a `delete` on an absent key is a no-op) and answer 200;
with no truthy `userId`, clear the whole therapist map. -/
def therapistResetHandler (body : List (String × Json)) (st : ServerState) :
    ServerState × HttpResponse :=
  if fieldTruthy body "userId" then
    let u := jsToKey ((getField body "userId").getD .null)
    ({ st with therapistHistory := setKey st.therapistHistory u none },
      ok200 (.obj [("message", .str ("Therapist chat history reset for " ++ u))]))
  else
    ({ st with therapistHistory := fun _ => none },
      ok200 (.obj [("message", .str "All therapist chat histories reset")]))

/-! ### Helper lemmas -/

theorem takeToLastClose_eq (cs : List Char) :
    takeToLastClose cs = (lastCloseIdx cs).map (fun k => cs.take (k + 1)) := by
  induction cs with
  | nil => rfl
  | cons c rest ih =>
    cases h : lastCloseIdx rest with
    | none =>
      rw [h] at ih
      simp only [Option.map_none'] at ih
      simp only [takeToLastClose, lastCloseIdx, h, ih]
      by_cases hc : c = '\x7d' <;> simp [hc, List.take]
    | some k =>
      rw [h] at ih
      simp only [Option.map_some'] at ih
      simp only [takeToLastClose, lastCloseIdx, h, ih]
      simp [List.take_succ_cons]

theorem firstToLastBraceL_none_of_lastClose_none {cs : List Char}
    (h : lastCloseIdx cs = none) : firstToLastBraceL cs = none := by
  unfold firstToLastBraceL
  rw [h]
  cases firstOpenIdx cs <;> rfl

theorem firstToLastBraceL_cons_of_ne {c : Char} {rest : List Char} (hc : ¬c = '\x7b') :
    firstToLastBraceL (c :: rest) = firstToLastBraceL rest := by
  simp only [firstToLastBraceL, firstOpenIdx, lastCloseIdx, if_neg hc]
  cases hj : lastCloseIdx rest with
  | some k =>
    cases hi : firstOpenIdx rest with
    | some i =>
      simp only [Option.map_some']
      by_cases hik : i < k
      · simp [hik, Nat.succ_lt_succ_iff, Nat.succ_sub_succ, List.drop_succ_cons]
      · simp [hik, Nat.succ_lt_succ_iff]
    | none => simp
  | none =>
    by_cases hc2 : c = '\x7d'
    · simp only [if_pos hc2]
      cases hi : firstOpenIdx rest with
      | some i => simp
      | none => simp
    · simp only [if_neg hc2]
      cases hi : firstOpenIdx rest with
      | some i => simp
      | none => simp

theorem braceMatchL_eq_firstToLast (cs : List Char) :
    braceMatchL cs = firstToLastBraceL cs := by
  induction cs with
  | nil => rfl
  | cons c rest ih =>
    by_cases hc : c = '\x7b'
    · subst hc
      cases h : lastCloseIdx rest with
      | some k =>
        have ht : takeToLastClose rest = some (rest.take (k + 1)) := by
          rw [takeToLastClose_eq, h]; rfl
        simp only [braceMatchL, if_pos rfl, ht, firstToLastBraceL, firstOpenIdx,
          lastCloseIdx, h]
        simp [List.take_succ_cons]
      | none =>
        have ht : takeToLastClose rest = none := by
          rw [takeToLastClose_eq, h]; rfl
        have hfr : firstToLastBraceL rest = none :=
          firstToLastBraceL_none_of_lastClose_none h
        have hfc : firstToLastBraceL ('\x7b' :: rest) = none := by
          apply firstToLastBraceL_none_of_lastClose_none
          simp only [lastCloseIdx, h]
          rfl
        simp only [braceMatchL, if_pos rfl, ht, hfc]
        simp only [if_true]
        rw [ih, hfr]
    · have hb : braceMatchL (c :: rest) = braceMatchL rest := by
        simp [braceMatchL, hc]
      rw [hb, ih, firstToLastBraceL_cons_of_ne hc]

theorem fieldTruthy_eq_false_of_none {body : List (String × Json)} {k : String}
    (h : getField body k = none) : fieldTruthy body k = false := by
  unfold fieldTruthy
  rw [h]
  rfl

theorem fieldTruthy_eq_false_of_falsy {body : List (String × Json)} {k : String} {v : Json}
    (h : getField body k = some v) (hv : truthy v = false) : fieldTruthy body k = false := by
  unfold fieldTruthy
  rw [h]
  exact hv

/-- Response-shape predicate for claim C1: status is one of the four used
codes, non-200 bodies carry `error`, 500 bodies also carry `details`,
and the non-200 non-500 bodies (the 400 validation and 404 not-found
responses) carry no `details` - their body is an object with the single
`error` field. -/
def errorShapeOK (r : HttpResponse) : Prop :=
  (r.status = 200 ∨ r.status = 400 ∨ r.status = 404 ∨ r.status = 500) ∧
  (r.status ≠ 200 → hasField r.body "error" = true) ∧
  (r.status = 500 → hasField r.body "details" = true) ∧
  (r.status ≠ 200 → r.status ≠ 500 →
    hasField r.body "details" = false ∧ ∃ msg, r.body = .obj [("error", .str msg)])

theorem errorShapeOK_resp400 (msg : String) : errorShapeOK (resp400 msg) :=
  ⟨Or.inr (Or.inl rfl), fun _ => rfl, fun h => by simp [resp400] at h,
    fun _ _ => ⟨rfl, msg, rfl⟩⟩

theorem errorShapeOK_err500 (e : String) : errorShapeOK (err500 e) :=
  ⟨Or.inr (Or.inr (Or.inr rfl)), fun _ => rfl, fun _ => rfl,
    fun _ h5 => absurd rfl h5⟩

theorem errorShapeOK_ok200 (b : Json) : errorShapeOK (ok200 b) :=
  ⟨Or.inl rfl, fun h => absurd rfl h, fun h => by simp [ok200] at h,
    fun h _ => absurd rfl h⟩

theorem errorShapeOK_notFound :
    errorShapeOK { status := 404, body := .obj [("error", .str "User not found")] } :=
  ⟨Or.inr (Or.inr (Or.inl rfl)), fun _ => rfl, fun h => absurd h (by decide),
    fun _ _ => ⟨rfl, "User not found", rfl⟩⟩

theorem errorShapeOK_correctGrammar (body : List (String × Json))
    (m : Except String String) (st : ServerState) :
    errorShapeOK (correctGrammarHandler body m st).2 := by
  unfold correctGrammarHandler
  cases hv : (!fieldTruthy body "sentence")
  · cases m with
    | error e => simp only [hv, Bool.false_eq_true, if_false]; exact errorShapeOK_err500 e
    | ok text => simp only [hv, Bool.false_eq_true, if_false]; exact errorShapeOK_ok200 _
  · simp only [hv, if_true]
    exact errorShapeOK_resp400 _

theorem errorShapeOK_autoComplete (body : List (String × Json))
    (m : Except String String) (st : ServerState) :
    errorShapeOK (autoCompleteHandler body m st).2 := by
  unfold autoCompleteHandler
  cases hv : (!fieldTruthy body "sentence")
  · cases m with
    | error e => simp only [hv, Bool.false_eq_true, if_false]; exact errorShapeOK_err500 e
    | ok text => simp only [hv, Bool.false_eq_true, if_false]; exact errorShapeOK_ok200 _
  · simp only [hv, if_true]
    exact errorShapeOK_resp400 _

theorem errorShapeOK_roleplay (body : List (String × Json))
    (m : Except String String) (st : ServerState) :
    errorShapeOK (roleplayHandler body m st).2 := by
  unfold roleplayHandler
  cases hv : (!fieldTruthy body "userId" || !fieldTruthy body "scenario" || !fieldTruthy body "message")
  · simp only [hv, Bool.false_eq_true, if_false]
    cases m with
    | error e => exact errorShapeOK_err500 e
    | ok text =>
      cases hbm : braceMatchStr text with
      | none => simp only [hbm]; exact errorShapeOK_err500 _
      | some js =>
        simp only [hbm]
        cases hp : jsonParse js with
        | error e => simp only [hp]; exact errorShapeOK_err500 _
        | ok o => simp only [hp]; exact errorShapeOK_ok200 _
  · simp only [hv, if_true]
    exact errorShapeOK_resp400 _

theorem errorShapeOK_resetHistory (body : List (String × Json)) (st : ServerState) :
    errorShapeOK (resetHistoryHandler body st).2 := by
  unfold resetHistoryHandler
  cases hv : fieldTruthy body "userId"
  · simp only [hv, Bool.false_eq_true, if_false]
    exact errorShapeOK_ok200 _
  · simp only [hv, if_true]
    cases hh : st.conversationHistory (jsToKey ((getField body "userId").getD .null)) with
    | some l => simp only [hh]; exact errorShapeOK_ok200 _
    | none => simp only [hh]; exact errorShapeOK_notFound

theorem errorShapeOK_therapistChat (body : List (String × Json))
    (m : Except String String) (st : ServerState) :
    errorShapeOK (therapistChatHandler body m st).2 := by
  unfold therapistChatHandler
  cases hv : (!fieldTruthy body "userId" || !fieldTruthy body "message")
  · simp only [hv, Bool.false_eq_true, if_false]
    cases m with
    | error e => exact errorShapeOK_err500 e
    | ok text => exact errorShapeOK_ok200 _
  · simp only [hv, if_true]
    exact errorShapeOK_resp400 _

theorem errorShapeOK_therapistReset (body : List (String × Json)) (st : ServerState) :
    errorShapeOK (therapistResetHandler body st).2 := by
  unfold therapistResetHandler
  cases hv : fieldTruthy body "userId"
  · simp only [hv, Bool.false_eq_true, if_false]
    exact errorShapeOK_ok200 _
  · simp only [hv, if_true]
    exact errorShapeOK_ok200 _

/-! ### Claim C1 -/

/-- C1: the claim states that every error response carries both an
`error` and a `details` field.  Counterexample: the validation failure of
`/correct-grammar` (missing `sentence`) answers 400 with an `error` field
but no `details` field. -/
theorem C1_counterexample :
    (correctGrammarHandler [] (.ok "hello") initialState).2.status = 400 ∧
    hasField (correctGrammarHandler [] (.ok "hello") initialState).2.body "error" = true ∧
    hasField (correctGrammarHandler [] (.ok "hello") initialState).2.body "details" = false :=
  ⟨rfl, rfl, rfl⟩

/-- C1 (amended): on every route, every response status is 200, 400, 404
or 500; every non-200 response body carries an `error` field; the 500
responses additionally carry a `details` field; and only those do - every
400 or 404 response body has no `details` field and is exactly an object
with the single `error` field. -/
theorem C1_error_responses (body : List (String × Json)) (m : Except String String)
    (st : ServerState) :
    errorShapeOK (correctGrammarHandler body m st).2 ∧
    errorShapeOK (autoCompleteHandler body m st).2 ∧
    errorShapeOK (roleplayHandler body m st).2 ∧
    errorShapeOK (resetHistoryHandler body st).2 ∧
    errorShapeOK (therapistChatHandler body m st).2 ∧
    errorShapeOK (therapistResetHandler body st).2 :=
  ⟨errorShapeOK_correctGrammar body m st, errorShapeOK_autoComplete body m st,
    errorShapeOK_roleplay body m st, errorShapeOK_resetHistory body st,
    errorShapeOK_therapistChat body m st, errorShapeOK_therapistReset body st⟩

/-- Witness for C1 (amended): the 404 of `/reset-history` carries `error`
and no `details`, and the 500 of `/roleplay` on a failed model call
carries `details`. -/
theorem C1_error_responses_witness :
    hasField (resetHistoryHandler [("userId", Json.str "ghost")] initialState).2.body
      "error" = true ∧
    hasField (resetHistoryHandler [("userId", Json.str "ghost")] initialState).2.body
      "details" = false ∧
    hasField (roleplayHandler
        [("userId", Json.str "u"), ("scenario", Json.str "s"), ("message", Json.str "m")]
        (.error "boom") initialState).2.body "details" = true :=
  ⟨((C1_error_responses [("userId", Json.str "ghost")] (.ok "x") initialState).2.2.2.1).2.1
      (by decide),
    (((C1_error_responses [("userId", Json.str "ghost")] (.ok "x")
        initialState).2.2.2.1).2.2.2 (by decide) (by decide)).1,
    ((C1_error_responses
        [("userId", Json.str "u"), ("scenario", Json.str "s"), ("message", Json.str "m")]
        (.error "boom") initialState).2.2.1).2.2.1 rfl⟩

/-! ### Claim C2 -/

/-- C2: the claim states that both scoped resets answer 404 on an unknown
user.  Counterexample: `/therapist-reset` with a `userId` that has no
entry in the therapist store answers 200, not 404. -/
theorem C2_counterexample :
    initialState.therapistHistory (jsToKey (.str "ghost")) = none ∧
    (therapistResetHandler [("userId", .str "ghost")] initialState).2.status = 200 :=
  ⟨rfl, rfl⟩

/-- C2 (amended): on a scoped reset whose user id has no entry,
`/reset-history` answers 404, but `/therapist-reset` answers 200 (it
deletes unconditionally and never checks presence). -/
theorem C2_scoped_reset (body : List (String × Json)) (st : ServerState) :
    (fieldTruthy body "userId" = true →
      st.conversationHistory (jsToKey ((getField body "userId").getD .null)) = none →
      (resetHistoryHandler body st).2.status = 404) ∧
    (fieldTruthy body "userId" = true →
      (therapistResetHandler body st).2.status = 200) := by
  constructor
  · intro h hn
    unfold resetHistoryHandler
    simp only [h, if_true, hn]
  · intro h
    unfold therapistResetHandler
    simp only [h, if_true]
    rfl

/-- Witness for C2 (amended) at a user id absent from both stores. -/
theorem C2_scoped_reset_witness :
    (resetHistoryHandler [("userId", Json.str "ghost")] initialState).2.status = 404 ∧
    (therapistResetHandler [("userId", Json.str "ghost")] initialState).2.status = 200 :=
  ⟨(C2_scoped_reset [("userId", Json.str "ghost")] initialState).1 rfl rfl,
    (C2_scoped_reset [("userId", Json.str "ghost")] initialState).2 rfl⟩

/-! ### Claim C3 -/

/-- C3: the claim states that every 200 response of `/roleplay` has both
a `response` and a `correction` field under `roleplayResponse`.
Counterexample: when the model reply is a JSON object with neither field,
the handler still parses it and answers 200, and the object under
`roleplayResponse` has neither field. -/
theorem C3_counterexample :
    (roleplayHandler
        [("userId", Json.str "u"), ("scenario", Json.str "s"), ("message", Json.str "hi")]
        (.ok "\x7b\"x\": 1\x7d") initialState).2.status = 200 ∧
    (objGet (roleplayHandler
        [("userId", Json.str "u"), ("scenario", Json.str "s"), ("message", Json.str "hi")]
        (.ok "\x7b\"x\": 1\x7d") initialState).2.body "roleplayResponse").isSome = true ∧
    hasField ((objGet (roleplayHandler
        [("userId", Json.str "u"), ("scenario", Json.str "s"), ("message", Json.str "hi")]
        (.ok "\x7b\"x\": 1\x7d") initialState).2.body "roleplayResponse").getD .null)
      "response" = false ∧
    hasField ((objGet (roleplayHandler
        [("userId", Json.str "u"), ("scenario", Json.str "s"), ("message", Json.str "hi")]
        (.ok "\x7b\"x\": 1\x7d") initialState).2.body "roleplayResponse").getD .null)
      "correction" = false :=
  ⟨rfl, rfl, rfl, rfl⟩

/-- C3 (amended): every 200 response of `/roleplay` has the shape
`\x7b roleplayResponse: o \x7d` where `o` is exactly the JSON value parsed
from the brace-extracted substring of the model reply; `o` carries
`response` and `correction` only when the model supplied them, nothing
enforces their presence. -/
theorem C3_success_shape (body : List (String × Json)) (m : Except String String)
    (st : ServerState) (h : (roleplayHandler body m st).2.status = 200) :
    ∃ text js o, m = .ok text ∧ braceMatchStr text = some js ∧ jsonParse js = .ok o ∧
      (roleplayHandler body m st).2.body = .obj [("roleplayResponse", o)] := by
  unfold roleplayHandler at h ⊢
  cases hv : (!fieldTruthy body "userId" || !fieldTruthy body "scenario" ||
      !fieldTruthy body "message") with
  | true => rw [hv] at h; simp [resp400] at h
  | false =>
    simp only [hv, Bool.false_eq_true, if_false] at h ⊢
    cases m with
    | error e => simp [err500] at h
    | ok text =>
      dsimp only at h ⊢
      cases hbm : braceMatchStr text with
      | none => rw [hbm] at h; simp [err500] at h
      | some js =>
        rw [hbm] at h
        dsimp only at h ⊢
        cases hp : jsonParse js with
        | error e => rw [hp] at h; simp [err500] at h
        | ok o => exact ⟨text, js, o, rfl, hbm, hp, rfl⟩

/-- Witness for C3 (amended) at a reply that does carry both fields. -/
theorem C3_success_shape_witness :
    (roleplayHandler
        [("userId", Json.str "u"), ("scenario", Json.str "s"), ("message", Json.str "hi")]
        (.ok "\x7b\"response\": \"ok\", \"correction\": \"Hi.\"\x7d") initialState).2.status
      = 200 ∧
    ∃ text js o,
      (Except.ok "\x7b\"response\": \"ok\", \"correction\": \"Hi.\"\x7d"
          : Except String String) = .ok text ∧
      braceMatchStr text = some js ∧ jsonParse js = .ok o ∧
      (roleplayHandler
          [("userId", Json.str "u"), ("scenario", Json.str "s"), ("message", Json.str "hi")]
          (.ok "\x7b\"response\": \"ok\", \"correction\": \"Hi.\"\x7d") initialState).2.body
        = .obj [("roleplayResponse", o)] :=
  ⟨rfl, C3_success_shape
      [("userId", Json.str "u"), ("scenario", Json.str "s"), ("message", Json.str "hi")]
      (.ok "\x7b\"response\": \"ok\", \"correction\": \"Hi.\"\x7d") initialState rfl⟩

/-! ### Claim C4 -/

/-- C4: in `/roleplay`, a failed model call, a reply with no
brace-delimited substring, and a reply whose extracted substring does not
parse, each land in the catch branch: HTTP 500 with the raw error message
under `details` (the thrown message for a model failure, the fixed
`Invalid JSON response from AI` for a missed match, the parse error
message otherwise).  The handler consumes a single model outcome: there
is no retry. -/
theorem C4_roleplay_failure_500 (body : List (String × Json)) (st : ServerState)
    (h1 : fieldTruthy body "userId" = true) (h2 : fieldTruthy body "scenario" = true)
    (h3 : fieldTruthy body "message" = true) :
    (∀ e, (roleplayHandler body (.error e) st).2 = err500 e) ∧
    (∀ text, braceMatchStr text = none →
      (roleplayHandler body (.ok text) st).2 = err500 "Invalid JSON response from AI") ∧
    (∀ text js e, braceMatchStr text = some js → jsonParse js = .error e →
      (roleplayHandler body (.ok text) st).2 = err500 e) ∧
    (∀ e, (err500 e).status = 500 ∧ objGet (err500 e).body "details" = some (.str e)) := by
  have hv : (!fieldTruthy body "userId" || !fieldTruthy body "scenario" ||
      !fieldTruthy body "message") = false := by
    simp [h1, h2, h3]
  refine ⟨?_, ?_, ?_, fun e => ⟨rfl, rfl⟩⟩
  · intro e
    unfold roleplayHandler
    simp only [hv, Bool.false_eq_true, if_false]
  · intro text hbm
    unfold roleplayHandler
    simp only [hv, Bool.false_eq_true, if_false, hbm]
  · intro text js e hbm hp
    unfold roleplayHandler
    simp only [hv, Bool.false_eq_true, if_false, hbm, hp]

/-- Witness for C4 at a failed model call and at a reply with no JSON
object. -/
theorem C4_roleplay_failure_500_witness :
    (roleplayHandler
        [("userId", Json.str "u"), ("scenario", Json.str "s"), ("message", Json.str "hi")]
        (.error "boom") initialState).2 = err500 "boom" ∧
    (roleplayHandler
        [("userId", Json.str "u"), ("scenario", Json.str "s"), ("message", Json.str "hi")]
        (.ok "no json here") initialState).2 = err500 "Invalid JSON response from AI" :=
  ⟨(C4_roleplay_failure_500
      [("userId", Json.str "u"), ("scenario", Json.str "s"), ("message", Json.str "hi")]
      initialState rfl rfl rfl).1 "boom",
    (C4_roleplay_failure_500
      [("userId", Json.str "u"), ("scenario", Json.str "s"), ("message", Json.str "hi")]
      initialState rfl rfl rfl).2.1 "no json here" rfl⟩

/-! ### Claim C5 -/

/-- C5: a validated `/roleplay` request that ends in the 500 branch has
still appended exactly the one user entry to that user's history (the
pre-try mutation is not rolled back), and likewise `/therapist-chat` with
its `content` entry. -/
theorem C5_no_rollback_on_500 (body : List (String × Json)) (m : Except String String)
    (st : ServerState) :
    (fieldTruthy body "userId" = true → fieldTruthy body "scenario" = true →
      fieldTruthy body "message" = true →
      (roleplayHandler body m st).2.status = 500 →
      (roleplayHandler body m st).1.conversationHistory
          (jsToKey ((getField body "userId").getD .null))
        = some ((st.conversationHistory (jsToKey ((getField body "userId").getD .null))).getD []
            ++ [{ role := "user", message := some ((getField body "message").getD .null) }])) ∧
    (fieldTruthy body "userId" = true → fieldTruthy body "message" = true →
      (therapistChatHandler body m st).2.status = 500 →
      (therapistChatHandler body m st).1.therapistHistory
          (jsToKey ((getField body "userId").getD .null))
        = some ((st.therapistHistory (jsToKey ((getField body "userId").getD .null))).getD []
            ++ [{ role := "user", content := (getField body "message").getD .null }])) := by
  constructor
  · intro h1 h2 h3 hs
    have hv : (!fieldTruthy body "userId" || !fieldTruthy body "scenario" ||
        !fieldTruthy body "message") = false := by
      simp [h1, h2, h3]
    unfold roleplayHandler at hs ⊢
    simp only [hv, Bool.false_eq_true, if_false] at hs ⊢
    cases m with
    | error e => simp [setKey]
    | ok text =>
      dsimp only at hs ⊢
      cases hbm : braceMatchStr text with
      | none => simp [setKey]
      | some js =>
        rw [hbm] at hs
        dsimp only at hs ⊢
        cases hp : jsonParse js with
        | error e => simp [setKey]
        | ok o => rw [hp] at hs; simp [ok200] at hs
  · intro h1 h2 hs
    have hv : (!fieldTruthy body "userId" || !fieldTruthy body "message") = false := by
      simp [h1, h2]
    unfold therapistChatHandler at hs ⊢
    simp only [hv, Bool.false_eq_true, if_false] at hs ⊢
    cases m with
    | error e => simp [setKey]
    | ok text => simp [ok200] at hs

/-- Witness for C5 at a failed model call on an empty store. -/
theorem C5_no_rollback_on_500_witness :
    (roleplayHandler
        [("userId", Json.str "u"), ("scenario", Json.str "s"), ("message", Json.str "hi")]
        (.error "boom") initialState).1.conversationHistory "u"
      = some [{ role := "user", message := some (Json.str "hi") }] ∧
    (therapistChatHandler [("userId", Json.str "u"), ("message", Json.str "sad")]
        (.error "boom") initialState).1.therapistHistory "u"
      = some [{ role := "user", content := Json.str "sad" }] :=
  ⟨(C5_no_rollback_on_500
      [("userId", Json.str "u"), ("scenario", Json.str "s"), ("message", Json.str "hi")]
      (.error "boom") initialState).1 rfl rfl rfl rfl,
    (C5_no_rollback_on_500 [("userId", Json.str "u"), ("message", Json.str "sad")]
      (.error "boom") initialState).2 rfl rfl rfl⟩

/-! ### Claim C6 -/

/-- C6: the brace-regex extraction used by the roleplay route equals
taking the substring that extends from the first opening brace to the
last closing brace of the reply (dot matching newlines), and fails
exactly when the reply has no such substring. -/
theorem C6_brace_extraction (s : String) :
    braceMatchStr s = firstToLastBraceStr s := by
  unfold braceMatchStr firstToLastBraceStr
  rw [braceMatchL_eq_firstToLast]

/-! ### Claim C7 -/

/-- Append-only evolution of one user's history: unchanged, or the old
entries followed by a suffix. -/
def appendOnly {α : Type} (old new : Option (List α)) : Prop :=
  new = old ∨ ∃ t, new = some (old.getD [] ++ t)

theorem setKey_same_apply {α : Type} (m : String → Option α) (k : String) (v w : Option α)
    (u' : String) : setKey (setKey m k v) k w u' = setKey m k w u' := by
  by_cases h : u' = k <;> simp [setKey, h]

theorem appendOnly_setKey {α : Type} (m0 : String → Option (List α)) (k : String)
    (v : Option (List α)) (t : List α) (hv : v = some ((m0 k).getD [] ++ t)) (u' : String) :
    appendOnly (m0 u') (setKey m0 k v u') := by
  by_cases h : u' = k
  · subst h
    right
    exact ⟨t, by simp [setKey, hv]⟩
  · left
    simp [setKey, h]

theorem roleplay_appendOnly (body : List (String × Json)) (m : Except String String)
    (st : ServerState) (u' : String) :
    appendOnly (st.conversationHistory u')
      ((roleplayHandler body m st).1.conversationHistory u') := by
  unfold roleplayHandler
  cases hv : (!fieldTruthy body "userId" || !fieldTruthy body "scenario" ||
      !fieldTruthy body "message") with
  | true => simp only [hv, if_true]; exact Or.inl rfl
  | false =>
    simp only [hv, Bool.false_eq_true, if_false]
    cases m with
    | error e => exact appendOnly_setKey _ _ _ _ rfl u'
    | ok text =>
      dsimp only
      cases braceMatchStr text with
      | none => exact appendOnly_setKey _ _ _ _ rfl u'
      | some js =>
        dsimp only
        cases jsonParse js with
        | error e => exact appendOnly_setKey _ _ _ _ rfl u'
        | ok o =>
          dsimp only
          rw [setKey_same_apply]
          exact appendOnly_setKey _ _ _
            [{ role := "user", message := some ((getField body "message").getD .null) },
              { role := "ai", message := objGet o "response" }] (by simp) u'

theorem therapistChat_appendOnly (body : List (String × Json)) (m : Except String String)
    (st : ServerState) (u' : String) :
    appendOnly (st.therapistHistory u')
      ((therapistChatHandler body m st).1.therapistHistory u') := by
  unfold therapistChatHandler
  cases hv : (!fieldTruthy body "userId" || !fieldTruthy body "message") with
  | true => simp only [hv, if_true]; exact Or.inl rfl
  | false =>
    simp only [hv, Bool.false_eq_true, if_false]
    cases m with
    | error e => exact appendOnly_setKey _ _ _ _ rfl u'
    | ok text =>
      dsimp only
      rw [setKey_same_apply]
      exact appendOnly_setKey _ _ _
        [{ role := "user", content := (getField body "message").getD .null },
          { role := "ai", content := .str (jsTrim text) }] (by simp) u'

theorem correctGrammar_state_eq (body : List (String × Json)) (m : Except String String)
    (st : ServerState) : (correctGrammarHandler body m st).1 = st := by
  unfold correctGrammarHandler
  cases hv : (!fieldTruthy body "sentence") with
  | true => simp only [hv, if_true]
  | false => cases m <;> simp only [hv, Bool.false_eq_true, if_false]

theorem autoComplete_state_eq (body : List (String × Json)) (m : Except String String)
    (st : ServerState) : (autoCompleteHandler body m st).1 = st := by
  unfold autoCompleteHandler
  cases hv : (!fieldTruthy body "sentence") with
  | true => simp only [hv, if_true]
  | false => cases m <;> simp only [hv, Bool.false_eq_true, if_false]

/-- C7: per-user histories only grow at the end — every non-reset route
either leaves a user's sequence unchanged or appends a suffix to it (no
removal, reordering or cap), the grammar routes never touch the stores,
and a 200 from `/roleplay` (resp. `/therapist-chat`) appends exactly the
user entry followed by the ai entry to the requesting user's sequence. -/
theorem C7_append_only (body : List (String × Json)) (m : Except String String)
    (st : ServerState) :
    (∀ u', appendOnly (st.conversationHistory u')
      ((roleplayHandler body m st).1.conversationHistory u')) ∧
    (∀ u', appendOnly (st.therapistHistory u')
      ((therapistChatHandler body m st).1.therapistHistory u')) ∧
    ((correctGrammarHandler body m st).1 = st) ∧
    ((autoCompleteHandler body m st).1 = st) ∧
    (fieldTruthy body "userId" = true → fieldTruthy body "scenario" = true →
      fieldTruthy body "message" = true → (roleplayHandler body m st).2.status = 200 →
      ∃ am, (roleplayHandler body m st).1.conversationHistory
          (jsToKey ((getField body "userId").getD .null))
        = some ((st.conversationHistory (jsToKey ((getField body "userId").getD .null))).getD []
            ++ [{ role := "user", message := some ((getField body "message").getD .null) },
                { role := "ai", message := am }])) ∧
    (fieldTruthy body "userId" = true → fieldTruthy body "message" = true →
      (therapistChatHandler body m st).2.status = 200 →
      ∃ ac, (therapistChatHandler body m st).1.therapistHistory
          (jsToKey ((getField body "userId").getD .null))
        = some ((st.therapistHistory (jsToKey ((getField body "userId").getD .null))).getD []
            ++ [{ role := "user", content := (getField body "message").getD .null },
                { role := "ai", content := ac }])) := by
  refine ⟨roleplay_appendOnly body m st, therapistChat_appendOnly body m st,
    correctGrammar_state_eq body m st, autoComplete_state_eq body m st, ?_, ?_⟩
  · intro h1 h2 h3 hs
    have hv : (!fieldTruthy body "userId" || !fieldTruthy body "scenario" ||
        !fieldTruthy body "message") = false := by
      simp [h1, h2, h3]
    unfold roleplayHandler at hs ⊢
    simp only [hv, Bool.false_eq_true, if_false] at hs ⊢
    cases m with
    | error e => simp [err500] at hs
    | ok text =>
      dsimp only at hs ⊢
      cases hbm : braceMatchStr text with
      | none => rw [hbm] at hs; simp [err500] at hs
      | some js =>
        rw [hbm] at hs
        dsimp only at hs ⊢
        cases hp : jsonParse js with
        | error e => rw [hp] at hs; simp [err500] at hs
        | ok o =>
          refine ⟨objGet o "response", ?_⟩
          simp [setKey]
  · intro h1 h2 hs
    have hv : (!fieldTruthy body "userId" || !fieldTruthy body "message") = false := by
      simp [h1, h2]
    unfold therapistChatHandler at hs ⊢
    simp only [hv, Bool.false_eq_true, if_false] at hs ⊢
    cases m with
    | error e => simp [err500] at hs
    | ok text =>
      refine ⟨.str (jsTrim text), ?_⟩
      simp [setKey]

/-- Witness for C7 at concrete 200 requests on the empty store. -/
theorem C7_append_only_witness :
    (∃ am, (roleplayHandler
        [("userId", Json.str "u"), ("scenario", Json.str "s"), ("message", Json.str "hi")]
        (.ok "\x7b\"response\": \"ok\", \"correction\": \"Hi.\"\x7d")
        initialState).1.conversationHistory "u"
      = some [{ role := "user", message := some (Json.str "hi") },
              { role := "ai", message := am }]) ∧
    (∃ ac, (therapistChatHandler [("userId", Json.str "u"), ("message", Json.str "sad")]
        (.ok " calm ") initialState).1.therapistHistory "u"
      = some [{ role := "user", content := Json.str "sad" },
              { role := "ai", content := ac }]) :=
  ⟨(C7_append_only
      [("userId", Json.str "u"), ("scenario", Json.str "s"), ("message", Json.str "hi")]
      (.ok "\x7b\"response\": \"ok\", \"correction\": \"Hi.\"\x7d")
      initialState).2.2.2.2.1 rfl rfl rfl rfl,
    (C7_append_only [("userId", Json.str "u"), ("message", Json.str "sad")]
      (.ok " calm ") initialState).2.2.2.2.2 rfl rfl rfl⟩

/-! ### Claim C8 -/

/-- C8: the two stores are independent — the roleplay routes never touch
the therapist store and the therapist routes never touch the roleplay
store — and a scoped reset changes at most the named user's key in its
own store. -/
theorem C8_store_independence (body : List (String × Json)) (m : Except String String)
    (st : ServerState) :
    ((roleplayHandler body m st).1.therapistHistory = st.therapistHistory) ∧
    ((resetHistoryHandler body st).1.therapistHistory = st.therapistHistory) ∧
    ((therapistChatHandler body m st).1.conversationHistory = st.conversationHistory) ∧
    ((therapistResetHandler body st).1.conversationHistory = st.conversationHistory) ∧
    (∀ u', fieldTruthy body "userId" = true →
      ¬u' = jsToKey ((getField body "userId").getD .null) →
      (resetHistoryHandler body st).1.conversationHistory u' = st.conversationHistory u' ∧
      (therapistResetHandler body st).1.therapistHistory u' = st.therapistHistory u') := by
  refine ⟨?_, ?_, ?_, ?_, ?_⟩
  · unfold roleplayHandler
    cases hv : (!fieldTruthy body "userId" || !fieldTruthy body "scenario" ||
        !fieldTruthy body "message") with
    | true => simp only [hv, if_true]
    | false =>
      simp only [hv, Bool.false_eq_true, if_false]
      cases m with
      | error e => rfl
      | ok text =>
        dsimp only
        cases braceMatchStr text with
        | none => rfl
        | some js =>
          dsimp only
          cases jsonParse js with
          | error e => rfl
          | ok o => rfl
  · unfold resetHistoryHandler
    cases hv : fieldTruthy body "userId" with
    | true =>
      simp only [hv, if_true]
      cases hh : st.conversationHistory (jsToKey ((getField body "userId").getD .null)) with
      | some l => simp only [hh]
      | none => simp only [hh]
    | false => simp only [hv, Bool.false_eq_true, if_false]
  · unfold therapistChatHandler
    cases hv : (!fieldTruthy body "userId" || !fieldTruthy body "message") with
    | true => simp only [hv, if_true]
    | false =>
      simp only [hv, Bool.false_eq_true, if_false]
      cases m with
      | error e => rfl
      | ok text => rfl
  · unfold therapistResetHandler
    cases hv : fieldTruthy body "userId" with
    | true => simp only [hv, if_true]
    | false => simp only [hv, Bool.false_eq_true, if_false]
  · intro u' ht hne
    constructor
    · unfold resetHistoryHandler
      simp only [ht, if_true]
      cases hh : st.conversationHistory (jsToKey ((getField body "userId").getD .null)) with
      | some l => simp only [hh]; simp [setKey, hne]
      | none => simp only [hh]
    · unfold therapistResetHandler
      simp only [ht, if_true]
      simp [setKey, hne]

/-- Witness for C8 at a scoped reset that names a different user. -/
theorem C8_store_independence_witness :
    (resetHistoryHandler [("userId", Json.str "u")] initialState).1.conversationHistory "other"
      = initialState.conversationHistory "other" ∧
    (therapistResetHandler [("userId", Json.str "u")] initialState).1.therapistHistory "other"
      = initialState.therapistHistory "other" :=
  (C8_store_independence [("userId", Json.str "u")] (.ok "x") initialState).2.2.2.2
    "other" rfl (by decide)

/-! ### Claim C9 -/

/-- C9: a missing required field makes the route answer 400 with its
fixed static message, with the state unchanged and the model oracle
unused (the result is the same pair for every oracle value). -/
theorem C9_missing_field_400 (body : List (String × Json)) (m : Except String String)
    (st : ServerState) :
    (getField body "sentence" = none →
      correctGrammarHandler body m st = (st, resp400 "Sentence is required") ∧
      autoCompleteHandler body m st = (st, resp400 "Sentence is required")) ∧
    ((getField body "userId" = none ∨ getField body "scenario" = none ∨
        getField body "message" = none) →
      roleplayHandler body m st = (st, resp400 "User ID, scenario, and message are required")) ∧
    ((getField body "userId" = none ∨ getField body "message" = none) →
      therapistChatHandler body m st = (st, resp400 "User ID and message are required")) := by
  refine ⟨?_, ?_, ?_⟩
  · intro h
    have hf := fieldTruthy_eq_false_of_none h
    constructor
    · unfold correctGrammarHandler; simp [hf]
    · unfold autoCompleteHandler; simp [hf]
  · intro h
    have hv : (!fieldTruthy body "userId" || !fieldTruthy body "scenario" ||
        !fieldTruthy body "message") = true := by
      rcases h with h | h | h <;> simp [fieldTruthy_eq_false_of_none h]
    unfold roleplayHandler
    simp [hv]
  · intro h
    have hv : (!fieldTruthy body "userId" || !fieldTruthy body "message") = true := by
      rcases h with h | h <;> simp [fieldTruthy_eq_false_of_none h]
    unfold therapistChatHandler
    simp [hv]

/-- Witness for C9 at an empty body and at a body with only `userId`. -/
theorem C9_missing_field_400_witness :
    correctGrammarHandler [] (.ok "x") initialState
      = (initialState, resp400 "Sentence is required") ∧
    roleplayHandler [("userId", Json.str "u")] (.ok "x") initialState
      = (initialState, resp400 "User ID, scenario, and message are required") :=
  ⟨((C9_missing_field_400 [] (.ok "x") initialState).1 rfl).1,
    (C9_missing_field_400 [("userId", Json.str "u")] (.ok "x") initialState).2.1
      (Or.inr (Or.inl rfl))⟩

/-! ### Claim C10 -/

/-- C10: validation tests JavaScript truthiness, not presence — a field
present with a falsy value (empty string, `0`, `false`, `null`) is
rejected with the same 400 pair `(st, resp400 msg)` as a missing field
(compare C9), and in particular `/correct-grammar` with
`sentence = ""` answers 400 `Sentence is required`. -/
theorem C10_falsy_validation (body : List (String × Json)) (m : Except String String)
    (st : ServerState) (v : Json) (hv : truthy v = false) :
    (getField body "sentence" = some v →
      correctGrammarHandler body m st = (st, resp400 "Sentence is required")) ∧
    (getField body "userId" = some v →
      roleplayHandler body m st = (st, resp400 "User ID, scenario, and message are required")) ∧
    (correctGrammarHandler [("sentence", Json.str "")] m st
      = (st, resp400 "Sentence is required")) := by
  refine ⟨?_, ?_, ?_⟩
  · intro h
    have hf := fieldTruthy_eq_false_of_falsy h hv
    unfold correctGrammarHandler
    simp [hf]
  · intro h
    have hf := fieldTruthy_eq_false_of_falsy h hv
    unfold roleplayHandler
    simp [hf]
  · unfold correctGrammarHandler
    rfl

/-- Witness for C10 at the empty string and at the falsy number zero. -/
theorem C10_falsy_validation_witness :
    truthy (Json.str "") = false ∧
    correctGrammarHandler [("sentence", Json.str "")] (.ok "x") initialState
      = (initialState, resp400 "Sentence is required") ∧
    roleplayHandler [("userId", Json.num 0), ("scenario", Json.str "s"), ("message", Json.str "m")]
        (.ok "x") initialState
      = (initialState, resp400 "User ID, scenario, and message are required") :=
  ⟨rfl,
    (C10_falsy_validation [("sentence", Json.str "")] (.ok "x") initialState
      (Json.str "") rfl).1 rfl,
    (C10_falsy_validation
      [("userId", Json.num 0), ("scenario", Json.str "s"), ("message", Json.str "m")]
      (.ok "x") initialState (Json.num 0) rfl).2.1 rfl⟩

end GrammarAgent
